import Mathlib

/-!
Shallow embedding of the authentication/authorization core of `api_psf`
(FastAPI + python-jose JWT):
  - app/core/config.py   (Settings)
  - app/core/auth.py     (token creation/decoding, authenticate_user, validators)
  - app/api/v1/endpoints/auth.py (login, refresh, logout endpoints)
  - app/api/v1/endpoints/usuarios.py (require_admin role gate)
Time is modelled in whole seconds (python-jose converts datetimes with
`timegm(...utctimetuple())`, truncating sub-second parts); the signed JWT is
modelled symbolically as its claim set plus the key that signed it.
-/

namespace ApiPsf

/-- app/core/config.py `Settings`: the fields the auth core reads.
`ACCESS_TOKEN_EXPIRE_MINUTES` / `REFRESH_TOKEN_EXPIRE_DAYS` default to 30 / 7;
`ENVIRONMENT` defaults to "development". -/
structure Settings where
  secretKey : String
  accessTokenExpireMinutes : Nat := 30
  refreshTokenExpireDays : Nat := 7
  environment : String := "development"
  deriving Repr, DecidableEq

/-- `REFRESH_COOKIE_NAME: str = "refresh_token"` (config.py). -/
def Settings.refreshCookieName (_ : Settings) : String := "refresh_token"

/-- `REFRESH_COOKIE_MAX_AGE: int = REFRESH_TOKEN_EXPIRE_DAYS * 24 * 60 * 60` (config.py). -/
def Settings.refreshCookieMaxAge (s : Settings) : Nat :=
  s.refreshTokenExpireDays * 24 * 60 * 60

/-- `COOKIE_SECURE` property: `ENVIRONMENT == "production"` (config.py). -/
def Settings.cookieSecure (s : Settings) : Bool := s.environment = "production"

/-- `COOKIE_SAMESITE` property: the code returns "lax" in every environment (config.py). -/
def Settings.cookieSamesite (_ : Settings) : String := "lax"

/-- The JWT payload as the code builds and reads it, mirroring
`TokenPayload` of app/schemas/auth.py: all four claims optional. -/
structure Claims where
  sub : Option String := none
  exp : Option Int := none
  iat : Option Int := none
  type : Option String := none
  deriving Repr, DecidableEq

/-- A presented token string: either a well-formed JWS carrying a claim set and
signed with some key, or a structurally malformed string. -/
inductive Jwt where
  | signed (claims : Claims) (key : String)
  | malformed (raw : String)
  deriving Repr, DecidableEq

/-- The claim set of a well-formed token, if any. -/
def Jwt.claims? : Jwt → Option Claims
  | .signed c _ => some c
  | .malformed _ => none

/-- python-jose `_validate_exp` with leeway 0: `ExpiredSignatureError` is
raised exactly when `exp < now`; a payload without `exp` is not
expiry-checked. This is the complement: the payload passes the expiry check. -/
def notExpired (exp : Option Int) (now : Int) : Bool :=
  match exp with
  | none => true
  | some e => decide (¬ e < now)

/-- `jose.jwt.decode(token, key, algorithms=[alg])` at clock instant `now`:
`none` models a raised `JWTError`. Signature verification fails for malformed
input or a non-matching key; then `_validate_exp` runs (`notExpired`); both
`ExpiredSignatureError` and a signature failure are `JWTError`s. -/
def jwtDecode (t : Jwt) (key : String) (now : Int) : Option Claims :=
  match t with
  | .malformed _ => none
  | .signed c k =>
    if k = key then (if notExpired c.exp now then some c else none) else none

/-- An `HTTPException` as raised by the auth core: status, detail, and whether
the `WWW-Authenticate: Bearer` header is attached. -/
structure HTTPError where
  status : Nat
  detail : String
  wwwAuthenticate : Bool := false
  deriving Repr, DecidableEq

/-- The `credentials_exception` of `get_current_user` (app/core/auth.py). -/
def credentialsException : HTTPError :=
  { status := 401, detail := "No se pudieron validar las credenciales", wwwAuthenticate := true }

/-- The 401 raised by `decode_refresh_token` on any `JWTError` (app/core/auth.py). -/
def invalidRefreshTokenError : HTTPError :=
  { status := 401, detail := "Invalid refresh token", wwwAuthenticate := true }

/-- 401 "No refresh token provided" (`get_current_user_from_refresh`). -/
def noRefreshTokenError : HTTPError :=
  { status := 401, detail := "No refresh token provided" }

/-- 401 "Invalid refresh token" raised directly (no headers) when the refresh
payload has no usable `sub` (`get_current_user_from_refresh`). -/
def invalidRefreshNoSubError : HTTPError :=
  { status := 401, detail := "Invalid refresh token" }

/-- 401 "Usuario no encontrado" (`get_current_user_from_refresh`). -/
def usuarioNoEncontradoError : HTTPError :=
  { status := 401, detail := "Usuario no encontrado" }

/-- 401 "Usuario inactivo" (raised in `authenticate_user`, `get_current_user`
and `get_current_user_from_refresh`, in each case without headers). -/
def usuarioInactivoError : HTTPError :=
  { status := 401, detail := "Usuario inactivo" }

/-- 401 "Credenciales incorrectas" (`authenticate_user`). -/
def credencialesIncorrectasError : HTTPError :=
  { status := 401, detail := "Credenciales incorrectas" }

/-- `create_access_token(data)` (app/core/auth.py). Every caller passes
`data={"sub": username}`; `now` is the `datetime.utcnow()` reading the function
itself makes, in seconds; `exp = now + ACCESS_TOKEN_EXPIRE_MINUTES minutes`,
`type='access'`, signed with `SECRET_KEY`. -/
def create_access_token (sub : String) (now : Int) (st : Settings) : Jwt :=
  Jwt.signed
    { sub := some sub,
      exp := some (now + (st.accessTokenExpireMinutes : Int) * 60),
      iat := some now,
      type := some "access" }
    st.secretKey

/-- `create_refresh_token(data)` (app/core/auth.py). Every caller passes
`data={"sub": username}`; `now` is the `datetime.utcnow()` reading the function
itself makes; `exp = now + REFRESH_TOKEN_EXPIRE_DAYS days`, `type='refresh'`. -/
def create_refresh_token (sub : String) (now : Int) (st : Settings) : Jwt :=
  Jwt.signed
    { sub := some sub,
      exp := some (now + (st.refreshTokenExpireDays : Int) * 86400),
      iat := some now,
      type := some "refresh" }
    st.secretKey

/-- `decode_refresh_token(token)` (app/core/auth.py): decodes with the secret
key; a `type` claim other than 'refresh' raises `JWTError` inside the same
`try`, so every failure maps to the one 401 "Invalid refresh token". -/
def decode_refresh_token (t : Jwt) (key : String) (now : Int) : Except HTTPError Claims :=
  match jwtDecode t key now with
  | none => .error invalidRefreshTokenError
  | some c =>
    if c.type = some "refresh" then .ok c else .error invalidRefreshTokenError

/-- One row of the `usuario` table, restricted to the columns the auth core
touches. -/
structure UserRow where
  usuario_id : Int
  nombre_usuario : String
  correo : String
  contrasena : String
  nombre : Option String := none
  apellido : Option String := none
  es_activo : Bool
  es_eliminado : Bool := false
  deriving Repr, DecidableEq

/-- The shared lookup `SELECT ... FROM usuario WHERE nombre_usuario = ? AND
es_eliminado = 0` executed through `execute_auth_query`, which returns the
first matching row as a dict, or `None`. -/
def findUserByName (db : List UserRow) (username : String) : Option UserRow :=
  db.find? (fun u => u.nombre_usuario = username && !u.es_eliminado)

/-- The row shape returned by the validators' SELECT (columns `usuario_id,
nombre_usuario, correo, nombre, apellido, es_activo`; no `contrasena`). -/
structure PublicUser where
  usuario_id : Int
  nombre_usuario : String
  correo : String
  nombre : Option String
  apellido : Option String
  es_activo : Bool
  deriving Repr, DecidableEq

/-- Projection of a `usuario` row onto the validators' SELECT column list. -/
def selectPublic (u : UserRow) : PublicUser :=
  { usuario_id := u.usuario_id, nombre_usuario := u.nombre_usuario, correo := u.correo,
    nombre := u.nombre, apellido := u.apellido, es_activo := u.es_activo }

/-- `get_current_user(token)` (app/core/auth.py): decode with the secret key
(any `JWTError`, and any payload-parsing error, maps to the one
`credentials_exception`); then `if not token_data.sub or token_data.type !=
"access"` (Python falsiness: `sub` absent or empty) raises
`credentials_exception`; then the `usuario` lookup: missing row raises
`credentials_exception`, inactive row raises 401 "Usuario inactivo". -/
def get_current_user (token : Jwt) (db : List UserRow) (st : Settings) (now : Int) :
    Except HTTPError PublicUser :=
  match jwtDecode token st.secretKey now with
  | none => .error credentialsException
  | some c =>
    match c.sub with
    | none => .error credentialsException
    | some username =>
      if username = "" ∨ c.type ≠ some "access" then .error credentialsException
      else
        match findUserByName db username with
        | none => .error credentialsException
        | some u =>
          if !u.es_activo then .error usuarioInactivoError
          else .ok (selectPublic u)

/-- `get_current_user_from_refresh(refresh_token)` (app/core/auth.py). The
cookie argument: a missing cookie (Python-falsy, i.e. absent or empty string)
is modelled as `none` and raises 401 "No refresh token provided". Then
`decode_refresh_token`, the `sub` presence check, the `usuario` lookup and the
active check, each with its own 401. -/
def get_current_user_from_refresh (cookie : Option Jwt) (db : List UserRow)
    (st : Settings) (now : Int) : Except HTTPError PublicUser :=
  match cookie with
  | none => .error noRefreshTokenError
  | some tok =>
    match decode_refresh_token tok st.secretKey now with
    | .error e => .error e
    | .ok c =>
      match c.sub with
      | none => .error invalidRefreshNoSubError
      | some username =>
        if username = "" then .error invalidRefreshNoSubError
        else
          match findUserByName db username with
          | none => .error usuarioNoEncontradoError
          | some u =>
            if !u.es_activo then .error usuarioInactivoError
            else .ok (selectPublic u)

/-- A Python value as stored in the row dicts the auth endpoints handle. -/
inductive PyVal where
  | pyInt (i : Int)
  | pyStr (s : String)
  | pyBool (b : Bool)
  | pyNone
  | pyList (l : List String)
  deriving Repr, DecidableEq

/-- A Python dict with string keys, as an association list (keys unique in the
dicts the code builds). -/
abbrev PyDict := List (String × PyVal)

/-- `d.get(k)` on a Python dict. -/
def dictGet (d : PyDict) (k : String) : Option PyVal :=
  (d.find? (fun kv => kv.1 = k)).map Prod.snd

/-- `d.pop(k, None)`: removes the entry for `k` (keys are unique, so dropping
every pair with that key is the same removal). -/
def dictPop (d : PyDict) (k : String) : PyDict :=
  d.filter (fun kv => kv.1 ≠ k)

/-- `None`-aware column value. -/
def optStrVal : Option String → PyVal
  | none => PyVal.pyNone
  | some s => PyVal.pyStr s

/-- The dict built by `execute_auth_query` for the login SELECT of
`authenticate_user` (columns `usuario_id, nombre_usuario, correo, contrasena,
nombre, apellido, es_activo`). -/
def authSelectDict (u : UserRow) : PyDict :=
  [("usuario_id", PyVal.pyInt u.usuario_id),
   ("nombre_usuario", PyVal.pyStr u.nombre_usuario),
   ("correo", PyVal.pyStr u.correo),
   ("contrasena", PyVal.pyStr u.contrasena),
   ("nombre", optStrVal u.nombre),
   ("apellido", optStrVal u.apellido),
   ("es_activo", PyVal.pyBool u.es_activo)]

/-- `authenticate_user(username, password)` (app/core/auth.py). `verify`
models `verify_password` from app/core/security.py, which is not under src/
(spec §4.1: a pure hashed-secret comparison returning a bool). The
`fecha_ultimo_acceso` UPDATE touches only that timestamp column, which none of
the modelled reads consult, and is not modelled. The `contrasena` entry is
popped from the row dict before it is returned. -/
def authenticate_user (verify : String → String → Bool) (db : List UserRow)
    (username password : String) : Except HTTPError PyDict :=
  match findUserByName db username with
  | none => .error credencialesIncorrectasError
  | some u =>
    if !verify password u.contrasena then .error credencialesIncorrectasError
    else if !u.es_activo then .error usuarioInactivoError
    else .ok (dictPop (authSelectDict u) "contrasena")

/-- The `Set-Cookie` instruction produced by `response.set_cookie`. -/
structure SetCookie where
  key : String
  value : Jwt
  httponly : Bool
  secure : Bool
  samesite : String
  max_age : Option Nat
  path : String
  deriving Repr, DecidableEq

/-- The attributes of a set cookie apart from its value. -/
def SetCookie.attrs (c : SetCookie) : String × Bool × Bool × String × Option Nat × String :=
  (c.key, c.httponly, c.secure, c.samesite, c.max_age, c.path)

/-- The `Token` response body (app/schemas/auth.py): access token, token type,
and the optional user-data dict. -/
structure TokenResponse where
  access_token : Jwt
  token_type : String
  user_data : Option PyDict
  deriving Repr, DecidableEq

/-- A successful login response: body plus the refresh cookie set on it. -/
structure LoginOutcome where
  body : TokenResponse
  cookie : SetCookie
  deriving Repr, DecidableEq

/-- The `login` endpoint (app/api/v1/endpoints/auth.py). `roles` models
`UsuarioService.get_user_role_names` (app/services/usuario_service.py is not
under src/), applied to `user_base_data.get('usuario_id')`. `tAccess` and
`tRefresh` are the two separate `datetime.utcnow()` readings taken inside
`create_access_token` and `create_refresh_token` respectively — the endpoint
itself reads no clock. The refresh token goes into the cookie with
`httponly=True, secure=COOKIE_SECURE, samesite=COOKIE_SAMESITE,
max_age=REFRESH_COOKIE_MAX_AGE, path="/"`. -/
def login (verify : String → String → Bool) (roles : Option PyVal → List String)
    (db : List UserRow) (username password : String)
    (tAccess tRefresh : Int) (st : Settings) : Except HTTPError LoginOutcome :=
  match authenticate_user verify db username password with
  | .error e => .error e
  | .ok userBase =>
    let roleNames := roles (dictGet userBase "usuario_id")
    let userFull := userBase ++ [("roles", PyVal.pyList roleNames)]
    let accessToken := create_access_token username tAccess st
    let refreshToken := create_refresh_token username tRefresh st
    .ok
      { body :=
          { access_token := accessToken, token_type := "bearer",
            user_data := some userFull },
        cookie :=
          { key := st.refreshCookieName, value := refreshToken, httponly := true,
            secure := st.cookieSecure, samesite := st.cookieSamesite,
            max_age := some st.refreshCookieMaxAge, path := "/" } }

/-- 401 "Usuario no válido en el refresh token" (`refresh_access_token`). -/
def usuarioNoValidoError : HTTPError :=
  { status := 401, detail := "Usuario no válido en el refresh token" }

/-- The `refresh_access_token` endpoint body (app/api/v1/endpoints/auth.py),
run after the `get_current_user_from_refresh` dependency produced
`current_user`. `current_user.get("nombre_usuario")` is the row column, falsy
only when it is the empty string; then one new access token, one new refresh
token, and the replacement cookie with the same attribute expressions as the
login cookie. The body's `user_data` is `None`. `tAccess`/`tRefresh` are the
clock readings inside the two token creators. -/
def refresh_access_token (current_user : PublicUser) (tAccess tRefresh : Int)
    (st : Settings) : Except HTTPError (TokenResponse × SetCookie) :=
  let username := current_user.nombre_usuario
  if username = "" then .error usuarioNoValidoError
  else
    .ok
      ({ access_token := create_access_token username tAccess st,
         token_type := "bearer", user_data := none },
       { key := st.refreshCookieName,
         value := create_refresh_token username tRefresh st, httponly := true,
         secure := st.cookieSecure, samesite := st.cookieSamesite,
         max_age := some st.refreshCookieMaxAge, path := "/" })

/-- The deletion `Set-Cookie` produced by `response.delete_cookie`: Starlette
forwards to `set_cookie` with empty value and `max_age=0`, and the attributes
not passed at the call site keep their defaults `secure=False,
httponly=False`. -/
structure DeleteCookie where
  key : String
  path : String
  samesite : String
  secure : Bool
  httponly : Bool
  max_age : Nat
  deriving Repr, DecidableEq

/-- The `logout` endpoint (app/api/v1/endpoints/auth.py): calls only
`response.delete_cookie(key=REFRESH_COOKIE_NAME, path="/",
samesite=COOKIE_SAMESITE)` and returns a message. The handler makes no store
or service call, which the model reflects by returning the user store
unchanged. -/
def logout (db : List UserRow) (st : Settings) :
    List UserRow × DeleteCookie × String :=
  (db,
   { key := st.refreshCookieName, path := "/", samesite := st.cookieSamesite,
     secure := false, httponly := false, max_age := 0 },
   "Sesión cerrada exitosamente")

/-- The 403 produced when the role gate denies. -/
def forbiddenError : HTTPError := { status := 403, detail := "Forbidden" }

/-- Modelled from the spec: `RoleChecker` lives in app/api/deps.py, which is
not under src/. Spec §4.6: `authorize(identity, requiredRoleSet)` checks
non-empty intersection of the identity's active role-name set with the
required set; deny is reported as `Forbidden` (403), distinct from the 401
`Unauthorized` of the validators. -/
def roleCheck (required : List String) (userRoles : List String) :
    Except HTTPError Unit :=
  if required.any (fun r => userRoles.contains r) then .ok ()
  else .error forbiddenError

/-- `require_admin = RoleChecker(["Administrador"])`
(app/api/v1/endpoints/usuarios.py). -/
def require_admin (userRoles : List String) : Except HTTPError Unit :=
  roleCheck ["Administrador"] userRoles

/-- A presentation the refresh path accepts: the cookie holds a token signed
with the secret key, unexpired at `now`, of kind 'refresh', naming a nonempty
subject that the store resolves (among non-deleted rows) to `row`, and `row`
is active. -/
def validRefreshPresentation (cookie : Option Jwt) (db : List UserRow)
    (st : Settings) (now : Int) (row : UserRow) : Prop :=
  ∃ c s, cookie = some (Jwt.signed c st.secretKey) ∧
    (∀ e ∈ c.exp, now ≤ e) ∧
    c.type = some "refresh" ∧
    c.sub = some s ∧ s ≠ "" ∧
    findUserByName db s = some row ∧
    row.es_activo = true

theorem notExpired_eq_true_iff (exp : Option Int) (now : Int) :
    notExpired exp now = true ↔ ∀ e ∈ exp, now ≤ e := by
  cases exp with
  | none => simp [notExpired]
  | some e =>
    simp only [notExpired, decide_eq_true_eq, Option.mem_def, Option.some.injEq]
    constructor
    · intro h e' he'
      cases he'
      omega
    · intro h
      have := h e rfl
      omega

theorem jwtDecode_eq_some_iff (t : Jwt) (key : String) (now : Int) (c : Claims) :
    jwtDecode t key now = some c ↔
      t = .signed c key ∧ ∀ e ∈ c.exp, now ≤ e := by
  cases t with
  | malformed r => simp [jwtDecode]
  | signed c' k =>
    simp only [jwtDecode, Jwt.signed.injEq]
    by_cases hk : k = key
    · subst hk
      rw [if_pos rfl]
      by_cases he : notExpired c'.exp now = true
      · rw [if_pos he]
        constructor
        · intro h
          cases h
          exact ⟨⟨rfl, rfl⟩, (notExpired_eq_true_iff _ _).mp he⟩
        · rintro ⟨⟨rfl, -⟩, -⟩
          rfl
      · rw [if_neg he]
        constructor
        · intro h; cases h
        · rintro ⟨⟨rfl, -⟩, hall⟩
          exact absurd ((notExpired_eq_true_iff _ _).mpr hall) he
    · rw [if_neg hk]
      constructor
      · intro h; cases h
      · rintro ⟨⟨-, h2⟩, -⟩
        exact absurd h2 hk

theorem jwtDecode_forged (c : Claims) (k key : String) (now : Int) (h : k ≠ key) :
    jwtDecode (.signed c k) key now = none := by
  simp only [jwtDecode]
  rw [if_neg h]

theorem jwtDecode_expired (c : Claims) (key : String) (now e : Int)
    (hexp : c.exp = some e) (h : e < now) :
    jwtDecode (.signed c key) key now = none := by
  have hne : ¬ notExpired c.exp now = true := by
    simp only [notExpired_eq_true_iff, hexp]
    intro hall
    have := hall e rfl
    omega
  simp [jwtDecode, hne]

theorem decode_refresh_of_none (t : Jwt) (key : String) (now : Int)
    (hd : jwtDecode t key now = none) :
    decode_refresh_token t key now = .error invalidRefreshTokenError := by
  unfold decode_refresh_token
  rw [hd]

theorem decode_refresh_of_some (t : Jwt) (key : String) (now : Int) (c : Claims)
    (hd : jwtDecode t key now = some c) :
    decode_refresh_token t key now =
      if c.type = some "refresh" then .ok c else .error invalidRefreshTokenError := by
  unfold decode_refresh_token
  rw [hd]

theorem decode_refresh_eq_ok_iff (t : Jwt) (key : String) (now : Int) (c : Claims) :
    decode_refresh_token t key now = .ok c ↔
      t = .signed c key ∧ (∀ e ∈ c.exp, now ≤ e) ∧ c.type = some "refresh" := by
  rcases hd : jwtDecode t key now with _ | c'
  · rw [decode_refresh_of_none t key now hd]
    constructor
    · intro h; cases h
    · rintro ⟨rfl, hall, -⟩
      have : jwtDecode (Jwt.signed c key) key now = some c :=
        (jwtDecode_eq_some_iff _ _ _ _).mpr ⟨rfl, hall⟩
      rw [this] at hd
      cases hd
  · rw [decode_refresh_of_some t key now c' hd]
    have hd' := (jwtDecode_eq_some_iff t key now c').mp hd
    by_cases ht : c'.type = some "refresh"
    · rw [if_pos ht]
      constructor
      · intro h
        cases h
        exact ⟨hd'.1, hd'.2, ht⟩
      · rintro ⟨rfl, -, -⟩
        have heq : c = c' := by
          have h1 := hd'.1
          injection h1
        cases heq
        rfl
    · rw [if_neg ht]
      constructor
      · intro h; cases h
      · rintro ⟨rfl, -, htc⟩
        have heq : c = c' := by
          have h1 := hd'.1
          injection h1
        cases heq
        exact absurd htc ht

theorem decode_refresh_eq_error (t : Jwt) (key : String) (now : Int)
    (e : HTTPError) (h : decode_refresh_token t key now = .error e) :
    e = invalidRefreshTokenError := by
  rcases hd : jwtDecode t key now with _ | c
  · rw [decode_refresh_of_none t key now hd] at h
    cases h
    rfl
  · rw [decode_refresh_of_some t key now c hd] at h
    by_cases ht : c.type = some "refresh"
    · rw [if_pos ht] at h; cases h
    · rw [if_neg ht] at h; cases h; rfl

theorem findUserByName_some (db : List UserRow) (username : String) (row : UserRow)
    (h : findUserByName db username = some row) :
    row.nombre_usuario = username ∧ row.es_eliminado = false := by
  unfold findUserByName at h
  have hp := List.find?_some h
  simp only [Bool.and_eq_true, decide_eq_true_eq, Bool.not_eq_true'] at hp
  exact hp

theorem gcufr_decode_error (tok : Jwt) (db : List UserRow) (st : Settings)
    (now : Int) (e : HTTPError)
    (hd : decode_refresh_token tok st.secretKey now = .error e) :
    get_current_user_from_refresh (some tok) db st now = .error e := by
  simp only [get_current_user_from_refresh, hd]

theorem gcufr_decode_ok (tok : Jwt) (db : List UserRow) (st : Settings)
    (now : Int) (c : Claims)
    (hd : decode_refresh_token tok st.secretKey now = .ok c) :
    get_current_user_from_refresh (some tok) db st now =
      (match c.sub with
       | none => .error invalidRefreshNoSubError
       | some username =>
         if username = "" then .error invalidRefreshNoSubError
         else
           match findUserByName db username with
           | none => .error usuarioNoEncontradoError
           | some u =>
             if !u.es_activo then .error usuarioInactivoError
             else .ok (selectPublic u)) := by
  simp only [get_current_user_from_refresh, hd]

theorem refresh_ok_iff (cookie : Option Jwt) (db : List UserRow) (st : Settings)
    (now : Int) (p : PublicUser) :
    get_current_user_from_refresh cookie db st now = .ok p ↔
      ∃ row, validRefreshPresentation cookie db st now row ∧ p = selectPublic row := by
  cases cookie with
  | none => simp [get_current_user_from_refresh, validRefreshPresentation]
  | some tok =>
    constructor
    · intro h
      rcases hd : decode_refresh_token tok st.secretKey now with e | c
      · rw [gcufr_decode_error tok db st now e hd] at h
        cases h
      · rw [gcufr_decode_ok tok db st now c hd] at h
        have hdc := (decode_refresh_eq_ok_iff _ _ _ _).mp hd
        rcases hsub : c.sub with _ | s
        · rw [hsub] at h
          have h' : (Except.error invalidRefreshNoSubError :
              Except HTTPError PublicUser) = .ok p := h
          cases h'
        · rw [hsub] at h
          have h' : (if s = "" then
                (Except.error invalidRefreshNoSubError : Except HTTPError PublicUser)
              else
                match findUserByName db s with
                | none => .error usuarioNoEncontradoError
                | some u =>
                  if !u.es_activo then .error usuarioInactivoError
                  else .ok (selectPublic u)) = .ok p := h
          by_cases hs : s = ""
          · rw [if_pos hs] at h'
            cases h'
          · rw [if_neg hs] at h'
            rcases hf : findUserByName db s with _ | u
            · rw [hf] at h'
              have h'' : (Except.error usuarioNoEncontradoError :
                  Except HTTPError PublicUser) = .ok p := h'
              cases h''
            · rw [hf] at h'
              have h'' : (if !u.es_activo then
                    (Except.error usuarioInactivoError : Except HTTPError PublicUser)
                  else .ok (selectPublic u)) = .ok p := h'
              by_cases ha : u.es_activo = true
              · rw [ha] at h''
                have h3 : (Except.ok (selectPublic u) :
                    Except HTTPError PublicUser) = .ok p := h''
                cases h3
                exact ⟨u, ⟨c, s, by rw [hdc.1], hdc.2.1, hdc.2.2, hsub, hs, hf, ha⟩, rfl⟩
              · have ha' : u.es_activo = false := by
                  cases hb : u.es_activo
                  · rfl
                  · exact absurd hb ha
                rw [ha'] at h''
                have h3 : (Except.error usuarioInactivoError :
                    Except HTTPError PublicUser) = .ok p := h''
                cases h3
    · rintro ⟨row, ⟨c, s, hcook, hexp, htype, hsub, hs, hf, hact⟩, rfl⟩
      injection hcook with htok
      subst htok
      have hd : decode_refresh_token (Jwt.signed c st.secretKey) st.secretKey now = .ok c :=
        (decode_refresh_eq_ok_iff _ _ _ _).mpr ⟨rfl, hexp, htype⟩
      rw [gcufr_decode_ok _ db st now c hd, hsub]
      have hgoal : (if s = "" then
            (Except.error invalidRefreshNoSubError : Except HTTPError PublicUser)
          else
            match findUserByName db s with
            | none => .error usuarioNoEncontradoError
            | some u =>
              if !u.es_activo then .error usuarioInactivoError
              else .ok (selectPublic u)) = .ok (selectPublic row) := by
        rw [if_neg hs, hf]
        have hstep : (if (!row.es_activo) = true then
              (Except.error usuarioInactivoError : Except HTTPError PublicUser)
            else .ok (selectPublic row)) = .ok (selectPublic row) := by
          rw [hact]
          rfl
        exact hstep
      exact hgoal

theorem refresh_error_unauthorized (cookie : Option Jwt) (db : List UserRow)
    (st : Settings) (now : Int) (e : HTTPError)
    (h : get_current_user_from_refresh cookie db st now = .error e) :
    e.status = 401 := by
  cases cookie with
  | none =>
    have h' : (Except.error noRefreshTokenError :
        Except HTTPError PublicUser) = .error e := h
    cases h'
    rfl
  | some tok =>
    rcases hd : decode_refresh_token tok st.secretKey now with e' | c
    · have he' : e' = invalidRefreshTokenError :=
        decode_refresh_eq_error tok st.secretKey now e' hd
      subst he'
      rw [gcufr_decode_error tok db st now _ hd] at h
      cases h
      rfl
    · rw [gcufr_decode_ok tok db st now c hd] at h
      rcases hsub : c.sub with _ | s
      · rw [hsub] at h
        have h' : (Except.error invalidRefreshNoSubError :
            Except HTTPError PublicUser) = .error e := h
        cases h'
        rfl
      · rw [hsub] at h
        have h' : (if s = "" then
              (Except.error invalidRefreshNoSubError : Except HTTPError PublicUser)
            else
              match findUserByName db s with
              | none => .error usuarioNoEncontradoError
              | some u =>
                if !u.es_activo then .error usuarioInactivoError
                else .ok (selectPublic u)) = .error e := h
        by_cases hs : s = ""
        · rw [if_pos hs] at h'
          cases h'
          rfl
        · rw [if_neg hs] at h'
          rcases hf : findUserByName db s with _ | u
          · rw [hf] at h'
            have h'' : (Except.error usuarioNoEncontradoError :
                Except HTTPError PublicUser) = .error e := h'
            cases h''
            rfl
          · rw [hf] at h'
            have h2 : (if (!u.es_activo) = true then
                  (Except.error usuarioInactivoError : Except HTTPError PublicUser)
                else .ok (selectPublic u)) = .error e := h'
            cases ha : u.es_activo
            · rw [ha] at h2
              have h3 : (Except.error usuarioInactivoError :
                  Except HTTPError PublicUser) = .error e := h2
              cases h3
              rfl
            · rw [ha] at h2
              have h3 : (Except.ok (selectPublic u) :
                  Except HTTPError PublicUser) = .error e := h2
              cases h3

theorem gcu_decode_none (token : Jwt) (db : List UserRow) (st : Settings)
    (now : Int) (hd : jwtDecode token st.secretKey now = none) :
    get_current_user token db st now = .error credentialsException := by
  simp only [get_current_user, hd]

theorem gcu_decode_some (token : Jwt) (db : List UserRow) (st : Settings)
    (now : Int) (c : Claims)
    (hd : jwtDecode token st.secretKey now = some c) :
    get_current_user token db st now =
      (match c.sub with
       | none => .error credentialsException
       | some username =>
         if username = "" ∨ c.type ≠ some "access" then .error credentialsException
         else
           match findUserByName db username with
           | none => .error credentialsException
           | some u =>
             if !u.es_activo then .error usuarioInactivoError
             else .ok (selectPublic u)) := by
  simp only [get_current_user, hd]

/-- Example configuration used by the concrete witnesses below. -/
def exSettings : Settings := { secretKey := "k" }

/-- Example `usuario` row used by the concrete witnesses below. -/
def exRow : UserRow :=
  { usuario_id := 1, nombre_usuario := "alice", correo := "a@b.c",
    contrasena := "h", es_activo := true }

/-- Example user store used by the concrete witnesses below. -/
def exDb : List UserRow := [exRow]

/-- Example password check used by the concrete witnesses below. -/
def exVerify : String → String → Bool := fun password hash =>
  password = "pw" && hash = "h"

/-- Example role lookup used by the concrete witnesses below. -/
def exRoles : Option PyVal → List String := fun _ => ["Administrador"]

/-- C1: kind separation in both directions. A well-formed token whose `type`
claim is 'access' is rejected by the refresh-path decoder with the 401
"Invalid refresh token" — whatever its signing key, expiry and the clock — and
a well-formed token whose `type` claim is 'refresh' is rejected by the
access-path validator with the 401 `credentials_exception`, whatever its
signing key, expiry, the clock and the user store; in particular both
rejections stand when the signature is valid and the token unexpired. -/
theorem C1_kind_separation (c : Claims) (k : String) (db : List UserRow)
    (st : Settings) (now : Int) :
    (c.type = some "access" →
      decode_refresh_token (.signed c k) st.secretKey now
        = .error invalidRefreshTokenError ∧
      invalidRefreshTokenError.status = 401) ∧
    (c.type = some "refresh" →
      get_current_user (.signed c k) db st now = .error credentialsException ∧
      credentialsException.status = 401) := by
  constructor
  · intro htype
    refine ⟨?_, rfl⟩
    rcases hd : jwtDecode (Jwt.signed c k) st.secretKey now with _ | c'
    · exact decode_refresh_of_none _ _ _ hd
    · have h1 := ((jwtDecode_eq_some_iff _ _ _ _).mp hd).1
      injection h1 with h2 h3
      rw [← h2] at hd
      rw [decode_refresh_of_some _ _ _ _ hd, if_neg]
      rw [htype]
      decide
  · intro htype
    refine ⟨?_, rfl⟩
    rcases hd : jwtDecode (Jwt.signed c k) st.secretKey now with _ | c'
    · exact gcu_decode_none _ _ _ _ hd
    · have h1 := ((jwtDecode_eq_some_iff _ _ _ _).mp hd).1
      injection h1 with h2 h3
      rw [← h2] at hd
      rw [gcu_decode_some _ _ _ _ _ hd]
      rcases hsub : c.sub with _ | s
      · rfl
      · have hcond : s = "" ∨ c.type ≠ some "access" := by
          right
          rw [htype]
          decide
        show (if s = "" ∨ c.type ≠ some "access" then
            (Except.error credentialsException : Except HTTPError PublicUser)
          else
            match findUserByName db s with
            | none => .error credentialsException
            | some u =>
              if !u.es_activo then .error usuarioInactivoError
              else .ok (selectPublic u)) = .error credentialsException
        rw [if_pos hcond]

/-- C1 witness: a concrete access-kind token is rejected on the refresh path
and a concrete refresh-kind token is rejected on the access path. -/
theorem C1_kind_separation_witness :
    decode_refresh_token
        (.signed { sub := some "alice", exp := some 100, iat := some 0,
                   type := some "access" } "k")
        exSettings.secretKey 50 = .error invalidRefreshTokenError ∧
    get_current_user
        (.signed { sub := some "alice", exp := some 100, iat := some 0,
                   type := some "refresh" } "k")
        exDb exSettings 50 = .error credentialsException :=
  ⟨((C1_kind_separation
      { sub := some "alice", exp := some 100, iat := some 0, type := some "access" }
      "k" exDb exSettings 50).1 rfl).1,
   ((C1_kind_separation
      { sub := some "alice", exp := some 100, iat := some 0, type := some "refresh" }
      "k" exDb exSettings 50).2 rfl).1⟩

/-- C2 (amended): the two tokens of a login pair do not share one clock
reading; each carries as `iat` the `datetime.utcnow()` reading made inside its
own creator, so the two `iat` values coincide exactly when those two
back-to-back reads return the same timestamp, and differ otherwise. -/
theorem C2_iat_per_token (verify : String → String → Bool)
    (roles : Option PyVal → List String) (db : List UserRow)
    (username password : String) (tAccess tRefresh : Int) (st : Settings)
    (o : LoginOutcome)
    (h : login verify roles db username password tAccess tRefresh st = .ok o) :
    o.body.access_token.claims?.bind Claims.iat = some tAccess ∧
    o.cookie.value.claims?.bind Claims.iat = some tRefresh := by
  rcases ha : authenticate_user verify db username password with e | d
  · simp only [login, ha] at h
    cases h
  · simp only [login, ha] at h
    cases h
    exact ⟨rfl, rfl⟩

/-- C2 counterexample: a login whose two internal clock reads are 10 and 11
(the reads straddle a second boundary) issues an access token with iat 10 and
a refresh token with iat 11 — the pair does not carry one shared issued-at. -/
theorem C2_counterexample :
    (login exVerify exRoles exDb "alice" "pw" 10 11 exSettings).map
        (fun o => (o.body.access_token.claims?.bind Claims.iat,
                   o.cookie.value.claims?.bind Claims.iat))
      = .ok (some 10, some 11) ∧
    some (10 : Int) ≠ some (11 : Int) := by
  constructor
  · rfl
  · decide

/-- C2 witness: with both clock reads equal to 10, both tokens carry iat 10,
by the amended theorem applied at a concrete successful login. -/
theorem C2_iat_per_token_witness :
    ∃ o, login exVerify exRoles exDb "alice" "pw" 10 10 exSettings = .ok o ∧
      o.body.access_token.claims?.bind Claims.iat = some 10 ∧
      o.cookie.value.claims?.bind Claims.iat = some 10 := by
  apply Exists.intro
  constructor
  · rfl
  · exact C2_iat_per_token exVerify exRoles exDb "alice" "pw" 10 10 exSettings _ rfl

/-- C4 (amended): expiry is `iat + TTL` for the kind's fixed TTL and is
evaluated against the clock at decode time, but the boundary is strict:
decoding STRICTLY after the expiry instant fails with the path's 401, while
decoding at or before the expiry instant does not fail at the decode step
(python-jose raises `ExpiredSignatureError` only when `exp < now`). -/
theorem C4_expiry_boundary (sub : String) (t now : Int) (db : List UserRow)
    (st : Settings) :
    (t + (st.accessTokenExpireMinutes : Int) * 60 < now →
      get_current_user (create_access_token sub t st) db st now
        = .error credentialsException) ∧
    (now ≤ t + (st.accessTokenExpireMinutes : Int) * 60 →
      jwtDecode (create_access_token sub t st) st.secretKey now =
        some { sub := some sub,
               exp := some (t + (st.accessTokenExpireMinutes : Int) * 60),
               iat := some t, type := some "access" }) ∧
    (t + (st.refreshTokenExpireDays : Int) * 86400 < now →
      decode_refresh_token (create_refresh_token sub t st) st.secretKey now
        = .error invalidRefreshTokenError) ∧
    (now ≤ t + (st.refreshTokenExpireDays : Int) * 86400 →
      decode_refresh_token (create_refresh_token sub t st) st.secretKey now =
        .ok { sub := some sub,
              exp := some (t + (st.refreshTokenExpireDays : Int) * 86400),
              iat := some t, type := some "refresh" }) := by
  refine ⟨fun hlt => ?_, fun hle => ?_, fun hlt => ?_, fun hle => ?_⟩
  · exact gcu_decode_none _ _ _ _ (jwtDecode_expired _ _ _ _ rfl hlt)
  · exact (jwtDecode_eq_some_iff _ _ _ _).mpr
      ⟨rfl, by intro e he; cases he; omega⟩
  · exact decode_refresh_of_none _ _ _ (jwtDecode_expired _ _ _ _ rfl hlt)
  · exact (decode_refresh_eq_ok_iff _ _ _ _).mpr
      ⟨rfl, by intro e he; cases he; omega, rfl⟩

/-- C4 counterexample: a refresh token issued at 0 with the default 7-day TTL
has exp = 604800, and decoding it exactly at instant 604800 — at its expiry —
SUCCEEDS, where the claim requires failure at every instant at or after
expiry. -/
theorem C4_counterexample :
    decode_refresh_token (create_refresh_token "alice" 0 exSettings)
        exSettings.secretKey 604800
      = .ok { sub := some "alice", exp := some 604800, iat := some 0,
              type := some "refresh" } := by
  rfl

/-- C4 witness: the amended theorem at sub "alice", t = 0, default settings:
the access token decodes fine at instant 1800 (= its exp) and the refresh
token is rejected at instant 604801 (one past its exp). -/
theorem C4_expiry_boundary_witness :
    jwtDecode (create_access_token "alice" 0 exSettings) exSettings.secretKey 1800 =
      some { sub := some "alice", exp := some 1800, iat := some 0,
             type := some "access" } ∧
    decode_refresh_token (create_refresh_token "alice" 0 exSettings)
        exSettings.secretKey 604801 = .error invalidRefreshTokenError := by
  have h := C4_expiry_boundary "alice" 0 604801 exDb exSettings
  have h' := C4_expiry_boundary "alice" 0 1800 exDb exSettings
  exact ⟨by have := h'.2.1 (by decide); simpa using this,
         by have := h.2.2.1 (by decide); simpa using this⟩

/-- C8: a structurally valid but expired token (signed with the real key) and
a token with a forged signature produce the very same error value — same
status, same detail, same headers — on the access path and on the refresh
path alike, so the caller cannot distinguish the two causes. -/
theorem C8_expired_forged_indistinguishable (cexp cforged : Claims)
    (k : String) (db : List UserRow) (st : Settings) (now e : Int)
    (hexp : cexp.exp = some e) (he : e < now) (hk : k ≠ st.secretKey) :
    get_current_user (.signed cexp st.secretKey) db st now
        = get_current_user (.signed cforged k) db st now ∧
    get_current_user (.signed cexp st.secretKey) db st now
        = .error credentialsException ∧
    decode_refresh_token (.signed cexp st.secretKey) st.secretKey now
        = decode_refresh_token (.signed cforged k) st.secretKey now ∧
    decode_refresh_token (.signed cexp st.secretKey) st.secretKey now
        = .error invalidRefreshTokenError := by
  have h1 := jwtDecode_expired cexp st.secretKey now e hexp he
  have h2 := jwtDecode_forged cforged k st.secretKey now hk
  refine ⟨?_, ?_, ?_, ?_⟩
  · rw [gcu_decode_none _ db st now h1, gcu_decode_none _ db st now h2]
  · exact gcu_decode_none _ db st now h1
  · rw [decode_refresh_of_none _ _ _ h1, decode_refresh_of_none _ _ _ h2]
  · exact decode_refresh_of_none _ _ _ h1

/-- C8 witness: at clock 200, a token expired at 100 but signed with the real
key "k" and a token signed with the wrong key "forged" are rejected with the
same error on both paths. -/
theorem C8_expired_forged_indistinguishable_witness :
    get_current_user
        (.signed { sub := some "alice", exp := some 100, iat := some 0,
                   type := some "access" } "k") exDb exSettings 200
      = get_current_user
        (.signed { sub := some "alice", exp := some 900, iat := some 0,
                   type := some "access" } "forged") exDb exSettings 200 ∧
    decode_refresh_token
        (.signed { sub := some "alice", exp := some 100, iat := some 0,
                   type := some "refresh" } "k") exSettings.secretKey 200
      = decode_refresh_token
        (.signed { sub := some "alice", exp := some 900, iat := some 0,
                   type := some "refresh" } "forged") exSettings.secretKey 200 := by
  constructor
  · exact (C8_expired_forged_indistinguishable
      { sub := some "alice", exp := some 100, iat := some 0, type := some "access" }
      { sub := some "alice", exp := some 900, iat := some 0, type := some "access" }
      "forged" exDb exSettings 200 100 rfl (by decide) (by decide)).1
  · exact (C8_expired_forged_indistinguishable
      { sub := some "alice", exp := some 100, iat := some 0, type := some "refresh" }
      { sub := some "alice", exp := some 900, iat := some 0, type := some "refresh" }
      "forged" exDb exSettings 200 100 rfl (by decide) (by decide)).2.2.1

/-- C3: the refresh validation succeeds exactly on the good inputs — cookie
present and holding a token signed with the secret key, unexpired at the
decode-time clock, of kind 'refresh', naming a nonempty subject that the store
resolves among non-deleted rows to an active row — returning that subject's
row, and every failure it raises carries status 401 Unauthorized (missing
cookie, bad signature or malformed token, expired, wrong kind, absent or
inactive subject). -/
theorem C3_refresh_validation (cookie : Option Jwt) (db : List UserRow)
    (st : Settings) (now : Int) :
    (∀ p, get_current_user_from_refresh cookie db st now = .ok p ↔
      ∃ row, validRefreshPresentation cookie db st now row ∧
        p = selectPublic row) ∧
    (∀ e, get_current_user_from_refresh cookie db st now = .error e →
      e.status = 401) :=
  ⟨fun p => refresh_ok_iff cookie db st now p,
   fun e h => refresh_error_unauthorized cookie db st now e h⟩

/-- C3 witness: a concrete valid refresh cookie resolves to the concrete
active row, and the missing-cookie failure is a 401, both by the theorem. -/
theorem C3_refresh_validation_witness :
    get_current_user_from_refresh
        (some (Jwt.signed { sub := some "alice", exp := some 604800,
                            iat := some 0, type := some "refresh" } "k"))
        exDb exSettings 100 = .ok (selectPublic exRow) ∧
    noRefreshTokenError.status = 401 :=
  ⟨((C3_refresh_validation
      (some (Jwt.signed { sub := some "alice", exp := some 604800,
                          iat := some 0, type := some "refresh" } "k"))
      exDb exSettings 100).1 (selectPublic exRow)).mpr
      ⟨exRow,
       ⟨{ sub := some "alice", exp := some 604800, iat := some 0,
          type := some "refresh" }, "alice", rfl,
        by intro e he; simp at he; omega, rfl, rfl, by decide, by decide, rfl⟩,
       rfl⟩,
   (C3_refresh_validation none exDb exSettings 100).2 noRefreshTokenError rfl⟩

/-- C5: for every successfully validated refresh identity, the rotation
endpoint succeeds producing exactly one new access token (in the body, with
user_data None) and one new refresh token (in the replacement cookie), and the
replacement cookie carries the same name and the same httponly / secure /
samesite / max-age / path attribute values as the cookie any successful login
sets under the same settings. -/
theorem C5_rotation (cookie : Option Jwt) (db : List UserRow) (st : Settings)
    (now : Int) (u : PublicUser) (tA tR : Int)
    (verify : String → String → Bool) (roles : Option PyVal → List String)
    (db' : List UserRow) (username password : String) (tA' tR' : Int)
    (o : LoginOutcome)
    (hv : get_current_user_from_refresh cookie db st now = .ok u)
    (hl : login verify roles db' username password tA' tR' st = .ok o) :
    refresh_access_token u tA tR st = .ok
      ({ access_token := create_access_token u.nombre_usuario tA st,
         token_type := "bearer", user_data := none },
       { key := st.refreshCookieName,
         value := create_refresh_token u.nombre_usuario tR st,
         httponly := true, secure := st.cookieSecure,
         samesite := st.cookieSamesite,
         max_age := some st.refreshCookieMaxAge, path := "/" }) ∧
    (∀ out, refresh_access_token u tA tR st = .ok out →
      out.2.attrs = o.cookie.attrs) := by
  have hne : u.nombre_usuario ≠ "" := by
    rcases (refresh_ok_iff cookie db st now u).mp hv with
      ⟨row, ⟨c, s, hc, hexp, htype, hsub, hs, hf, hact⟩, hp⟩
    subst hp
    have hrow := findUserByName_some db s row hf
    show row.nombre_usuario ≠ ""
    rw [hrow.1]
    exact hs
  have hrot : refresh_access_token u tA tR st = .ok
      ({ access_token := create_access_token u.nombre_usuario tA st,
         token_type := "bearer", user_data := none },
       { key := st.refreshCookieName,
         value := create_refresh_token u.nombre_usuario tR st,
         httponly := true, secure := st.cookieSecure,
         samesite := st.cookieSamesite,
         max_age := some st.refreshCookieMaxAge, path := "/" }) := by
    simp only [refresh_access_token]
    rw [if_neg hne]
  refine ⟨hrot, ?_⟩
  intro out hout
  rw [hrot] at hout
  cases hout
  rcases ha : authenticate_user verify db' username password with e | d
  · simp only [login, ha] at hl
    cases hl
  · simp only [login, ha] at hl
    cases hl
    rfl

/-- C5 witness: rotation for the concrete validated identity of the C3
witness produces the concrete new pair, and its cookie attributes equal those
of a concrete successful login. -/
theorem C5_rotation_witness :
    refresh_access_token (selectPublic exRow) 20 20 exSettings = .ok
      ({ access_token := create_access_token "alice" 20 exSettings,
         token_type := "bearer", user_data := none },
       { key := exSettings.refreshCookieName,
         value := create_refresh_token "alice" 20 exSettings,
         httponly := true, secure := exSettings.cookieSecure,
         samesite := exSettings.cookieSamesite,
         max_age := some exSettings.refreshCookieMaxAge, path := "/" }) := by
  have h := C5_rotation
    (some (Jwt.signed { sub := some "alice", exp := some 604800,
                        iat := some 0, type := some "refresh" } "k"))
    exDb exSettings 100 (selectPublic exRow) 20 20
    exVerify exRoles exDb "alice" "pw" 10 10 _
    (by rfl) rfl
  exact h.1

/-- C6 (amended): logout's only effect is the refresh-cookie deletion: it
passes the same cookie name, path and samesite with which the cookie was set,
but does not re-pass httponly / secure / max-age (the deletion Set-Cookie
carries the framework defaults httponly=false, secure=false, max-age 0,
whereas the login cookie was set httponly=true); it changes no server state,
so any still-held refresh cookie validates identically on the refresh path
after logout — no server-side invalidation occurs. -/
theorem C6_logout_frame (db : List UserRow) (st : Settings)
    (cookie : Option Jwt) (now : Int) :
    (logout db st).1 = db ∧
    (logout db st).2.2 = "Sesión cerrada exitosamente" ∧
    (logout db st).2.1.key = st.refreshCookieName ∧
    (logout db st).2.1.path = "/" ∧
    (logout db st).2.1.samesite = st.cookieSamesite ∧
    (logout db st).2.1.httponly = false ∧
    (logout db st).2.1.secure = false ∧
    (logout db st).2.1.max_age = 0 ∧
    get_current_user_from_refresh cookie (logout db st).1 st now =
      get_current_user_from_refresh cookie db st now :=
  ⟨rfl, rfl, rfl, rfl, rfl, rfl, rfl, rfl, rfl⟩

/-- C6 counterexample: a concrete login sets the refresh cookie with
httponly=true, while the logout deletion carries httponly=false — the deletion
does not use the same attributes with which the cookie was set. -/
theorem C6_counterexample :
    (login exVerify exRoles exDb "alice" "pw" 10 10 exSettings).map
        (fun o => o.cookie.httponly) = .ok true ∧
    (logout exDb exSettings).2.1.httponly = false ∧
    true ≠ false := by
  exact ⟨rfl, rfl, by decide⟩

/-- C7: on the access path, even for a well-signed, unexpired token of kind
'access' naming a nonempty subject, validation rejects with a 401 when the
subject is not found among non-deleted rows — in particular when every row
with that name is marked deleted — or is found but inactive; it returns the
resolved row exactly for an existing, active, non-deleted subject. -/
theorem C7_subject_checks (c : Claims) (s : String) (db : List UserRow)
    (st : Settings) (now : Int)
    (hsub : c.sub = some s) (hne : s ≠ "") (htype : c.type = some "access")
    (hexp : ∀ e ∈ c.exp, now ≤ e) :
    (findUserByName db s = none →
      get_current_user (.signed c st.secretKey) db st now
        = .error credentialsException) ∧
    ((∀ row ∈ db, row.nombre_usuario = s → row.es_eliminado = true) →
      get_current_user (.signed c st.secretKey) db st now
        = .error credentialsException) ∧
    (∀ row, findUserByName db s = some row → row.es_activo = false →
      get_current_user (.signed c st.secretKey) db st now
        = .error usuarioInactivoError) ∧
    (∀ row, findUserByName db s = some row → row.es_activo = true →
      get_current_user (.signed c st.secretKey) db st now
        = .ok (selectPublic row)) := by
  have hd : jwtDecode (Jwt.signed c st.secretKey) st.secretKey now = some c :=
    (jwtDecode_eq_some_iff _ _ _ _).mpr ⟨rfl, hexp⟩
  have hcond : ¬(s = "" ∨ c.type ≠ some "access") := by
    rw [htype]
    simp [hne]
  have hbase : get_current_user (Jwt.signed c st.secretKey) db st now =
      (match findUserByName db s with
       | none => .error credentialsException
       | some u =>
         if !u.es_activo then .error usuarioInactivoError
         else .ok (selectPublic u)) := by
    rw [gcu_decode_some _ _ _ _ _ hd, hsub]
    show (if s = "" ∨ c.type ≠ some "access" then
        (Except.error credentialsException : Except HTTPError PublicUser)
      else
        match findUserByName db s with
        | none => .error credentialsException
        | some u =>
          if !u.es_activo then .error usuarioInactivoError
          else .ok (selectPublic u)) = _
    rw [if_neg hcond]
  refine ⟨?_, ?_, ?_, ?_⟩
  · intro hf
    rw [hbase, hf]
  · intro hdel
    have hf : findUserByName db s = none := by
      unfold findUserByName
      rw [List.find?_eq_none]
      intro u hu
      simp only [Bool.and_eq_true, decide_eq_true_eq, Bool.not_eq_true']
      rintro ⟨h1, h2⟩
      rw [hdel u hu h1] at h2
      cases h2
    rw [hbase, hf]
  · intro row hf hinact
    rw [hbase, hf]
    show (if !row.es_activo then
        (Except.error usuarioInactivoError : Except HTTPError PublicUser)
      else .ok (selectPublic row)) = _
    rw [hinact]
    rfl
  · intro row hf hact
    rw [hbase, hf]
    show (if !row.es_activo then
        (Except.error usuarioInactivoError : Except HTTPError PublicUser)
      else .ok (selectPublic row)) = _
    rw [hact]
    rfl

/-- C7 witness: with a concrete well-signed unexpired access token for
"alice": the empty store rejects 401, a store holding only a deleted "alice"
rejects 401, an inactive "alice" rejects 401 "Usuario inactivo", and the
active "alice" of `exDb` is returned. -/
theorem C7_subject_checks_witness :
    get_current_user
        (.signed { sub := some "alice", exp := some 5000, iat := some 0,
                   type := some "access" } "k") [] exSettings 100
      = .error credentialsException ∧
    get_current_user
        (.signed { sub := some "alice", exp := some 5000, iat := some 0,
                   type := some "access" } "k")
        [{ exRow with es_eliminado := true }] exSettings 100
      = .error credentialsException ∧
    get_current_user
        (.signed { sub := some "alice", exp := some 5000, iat := some 0,
                   type := some "access" } "k")
        [{ exRow with es_activo := false }] exSettings 100
      = .error usuarioInactivoError ∧
    get_current_user
        (.signed { sub := some "alice", exp := some 5000, iat := some 0,
                   type := some "access" } "k") exDb exSettings 100
      = .ok (selectPublic exRow) := by
  refine ⟨?_, ?_, ?_, ?_⟩
  · exact (C7_subject_checks
      { sub := some "alice", exp := some 5000, iat := some 0, type := some "access" }
      "alice" [] exSettings 100 rfl (by decide) rfl
      (by intro e he; simp at he; omega)).1 rfl
  · exact (C7_subject_checks
      { sub := some "alice", exp := some 5000, iat := some 0, type := some "access" }
      "alice" [{ exRow with es_eliminado := true }] exSettings 100 rfl
      (by decide) rfl (by intro e he; simp at he; omega)).1 (by decide)
  · exact ((C7_subject_checks
      { sub := some "alice", exp := some 5000, iat := some 0, type := some "access" }
      "alice" [{ exRow with es_activo := false }] exSettings 100 rfl
      (by decide) rfl (by intro e he; simp at he; omega)).2.2.1
      { exRow with es_activo := false } (by decide) rfl)
  · exact ((C7_subject_checks
      { sub := some "alice", exp := some 5000, iat := some 0, type := some "access" }
      "alice" exDb exSettings 100 rfl (by decide) rfl
      (by intro e he; simp at he; omega)).2.2.2 exRow (by decide) rfl)

/-- C9 (spec-modelled role gate): the gate denies with 403 Forbidden exactly
when the required role set and the identity's role set are disjoint, allows
exactly when they intersect, always denies an identity with an empty role
set, and the 403 deny is distinct from the validators' 401 Unauthorized. -/
theorem C9_authorization_gate (required userRoles : List String) :
    (roleCheck required userRoles = .error forbiddenError ↔
      ∀ r ∈ required, r ∉ userRoles) ∧
    (roleCheck required userRoles = .ok () ↔ ∃ r ∈ required, r ∈ userRoles) ∧
    roleCheck required [] = .error forbiddenError ∧
    require_admin userRoles = roleCheck ["Administrador"] userRoles ∧
    forbiddenError.status = 403 ∧ credentialsException.status = 401 ∧
    forbiddenError.status ≠ credentialsException.status := by
  have hiff : required.any (fun r => userRoles.contains r) = true ↔
      ∃ r ∈ required, r ∈ userRoles := by
    rw [List.any_eq_true]
    constructor
    · rintro ⟨r, hr, hc⟩
      exact ⟨r, hr, List.elem_iff.mp hc⟩
    · rintro ⟨r, hr, hm⟩
      exact ⟨r, hr, List.elem_iff.mpr hm⟩
  have hempty : roleCheck required [] = .error forbiddenError := by
    simp only [roleCheck]
    rw [if_neg]
    intro hany
    rcases List.any_eq_true.mp hany with ⟨r, hr, hc⟩
    exact absurd (List.elem_iff.mp hc) (List.not_mem_nil r)
  by_cases hany : required.any (fun r => userRoles.contains r) = true
  · refine ⟨?_, ?_, hempty, rfl, rfl, rfl, by decide⟩
    · simp only [roleCheck]
      rw [if_pos hany]
      constructor
      · intro h
        cases h
      · intro hall
        rcases hiff.mp hany with ⟨r, hr, hm⟩
        exact absurd hm (hall r hr)
    · simp only [roleCheck]
      rw [if_pos hany]
      exact ⟨fun _ => hiff.mp hany, fun _ => rfl⟩
  · refine ⟨?_, ?_, hempty, rfl, rfl, rfl, by decide⟩
    · simp only [roleCheck]
      rw [if_neg hany]
      constructor
      · intro _ r hr hm
        exact hany (hiff.mpr ⟨r, hr, hm⟩)
      · intro _
        rfl
    · simp only [roleCheck]
      rw [if_neg hany]
      constructor
      · intro h
        cases h
      · intro hex
        exact absurd (hiff.mpr hex) hany

theorem dictGet_dictPop_self (d : PyDict) (k : String) :
    dictGet (dictPop d k) k = none := by
  unfold dictGet dictPop
  rw [Option.map_eq_none', List.find?_eq_none]
  intro kv hkv
  have hmem := List.mem_filter.mp hkv
  simp only [decide_eq_true_eq] at hmem
  simp only [decide_eq_true_eq]
  exact hmem.2

theorem dictGet_append_of_none (d1 d2 : PyDict) (k : String)
    (h : dictGet d1 k = none) :
    dictGet (d1 ++ d2) k = dictGet d2 k := by
  induction d1 with
  | nil => rfl
  | cons kv tl ih =>
    have hk : ¬ kv.1 = k := by
      intro hk
      unfold dictGet at h
      rw [List.find?_cons_of_pos _ (by simp [hk])] at h
      simp at h
    have htl : dictGet tl k = none := by
      unfold dictGet at h ⊢
      rw [List.find?_cons_of_neg _ (by simp [hk])] at h
      exact h
    have hstep : dictGet ((kv :: tl) ++ d2) k = dictGet (tl ++ d2) k := by
      unfold dictGet
      rw [List.cons_append, List.find?_cons_of_neg _ (by simp [hk])]
    rw [hstep]
    exact ih htl

/-- C10: a successful `authenticate_user` returns the row dict with the
'contrasena' entry removed — the stored hash is consulted only by the boolean
`verify_password` check — and hence the `user_data` in the login response
body (that dict plus a 'roles' entry) carries no 'contrasena' entry either. -/
theorem C10_no_password_in_result (verify : String → String → Bool)
    (roles : Option PyVal → List String) (db : List UserRow)
    (username password : String) (tA tR : Int) (st : Settings) :
    (∀ d, authenticate_user verify db username password = .ok d →
      dictGet d "contrasena" = none) ∧
    (∀ o, login verify roles db username password tA tR st = .ok o →
      ∀ ud, o.body.user_data = some ud → dictGet ud "contrasena" = none) := by
  have hauth : ∀ d, authenticate_user verify db username password = .ok d →
      dictGet d "contrasena" = none := by
    intro d hd
    rcases hf : findUserByName db username with _ | u
    · unfold authenticate_user at hd
      rw [hf] at hd
      cases hd
    · unfold authenticate_user at hd
      rw [hf] at hd
      have hd' : (if !verify password u.contrasena then
            (Except.error credencialesIncorrectasError : Except HTTPError PyDict)
          else if !u.es_activo then .error usuarioInactivoError
          else .ok (dictPop (authSelectDict u) "contrasena")) = .ok d := hd
      by_cases hv : verify password u.contrasena = true
      · rw [hv] at hd'
        have hd2 : (if !u.es_activo then
              (Except.error usuarioInactivoError : Except HTTPError PyDict)
            else .ok (dictPop (authSelectDict u) "contrasena")) = .ok d := hd'
        cases ha : u.es_activo
        · rw [ha] at hd2
          have hd3 : (Except.error usuarioInactivoError :
              Except HTTPError PyDict) = .ok d := hd2
          cases hd3
        · rw [ha] at hd2
          have hd3 : (Except.ok (dictPop (authSelectDict u) "contrasena") :
              Except HTTPError PyDict) = .ok d := hd2
          cases hd3
          exact dictGet_dictPop_self _ _
      · have hv' : verify password u.contrasena = false := by
          cases hb : verify password u.contrasena
          · rfl
          · exact absurd hb hv
        rw [hv'] at hd'
        have hd2 : (Except.error credencialesIncorrectasError :
            Except HTTPError PyDict) = .ok d := hd'
        cases hd2
  refine ⟨hauth, ?_⟩
  intro o ho ud hud
  rcases ha : authenticate_user verify db username password with e | d
  · simp only [login, ha] at ho
    cases ho
  · simp only [login, ha] at ho
    cases ho
    have hud' : some (d ++ [("roles",
        PyVal.pyList (roles (dictGet d "usuario_id")))]) = some ud := hud
    cases hud'
    rw [dictGet_append_of_none _ _ _ (hauth d ha)]
    rfl

/-- C10 witness: the concrete successful authentication of "alice" returns a
dict in which the 'contrasena' key resolves to nothing. -/
theorem C10_no_password_in_result_witness :
    dictGet (dictPop (authSelectDict exRow) "contrasena") "contrasena" = none :=
  (C10_no_password_in_result exVerify exRoles exDb "alice" "pw" 10 10
    exSettings).1 (dictPop (authSelectDict exRow) "contrasena") rfl

end ApiPsf
